import Mathlib

/-!
Verification of the agentic tool-calling loop of `backend/ai_generator.py`
(`AIGenerator.generate_response` and `AIGenerator._extract_text`).

The model service (`self.client.messages.create`) is a black box that, given
the accumulated request parameters, returns the next model response.  Since
`generate_response` consumes responses strictly in call order, the service is
embedded as an oracle `Nat → ModelResponse` indexed by the number of
model-service calls made so far.  Tool execution
(`tool_manager.execute_tool(block.name, **block.input)`) may raise; it is
embedded as a function into `Except String String`, where `Except.error e`
models a raised exception whose `str` is `e`.
-/

namespace Rag

/-- A content block of a model response: either a text block
(`block.type == "text"`, carrying `block.text`) or a tool-use block
(`block.type == "tool_use"`, carrying `block.id`, `block.name`,
`block.input` — the keyword arguments, embedded as key/value pairs). -/
inductive ContentBlock where
  | text (t : String)
  | toolUse (id nm : String) (input : List (String × String))
deriving DecidableEq

/-- A response of the model service: `stop_reason` and `content`. -/
structure ModelResponse where
  stop_reason : String
  content : List ContentBlock
deriving DecidableEq

/-- One `tool_result` entry appended to the tool-results user turn
(the dict `{"type": "tool_result", "tool_use_id": …, "content": …}`). -/
structure ToolResult where
  tool_use_id : String
  content : String
deriving DecidableEq

/-- The `content` field of a transcript message: the seed user query is a
plain string, an assistant turn holds the response's content blocks, and a
tool-results user turn holds a list of `tool_result` entries. -/
inductive MessageContent where
  | str (s : String)
  | blocks (bs : List ContentBlock)
  | results (rs : List ToolResult)
deriving DecidableEq

/-- One transcript message (`{"role": …, "content": …}`). -/
structure Message where
  role : String
  content : MessageContent
deriving DecidableEq

/-- Tool advertisement payloads are opaque to `generate_response` (it only
forwards them and tests truthiness), so they are embedded as strings. -/
abbrev ToolSpec := String

/-- `tool_manager.execute_tool` as a black box: given the tool name and the
keyword arguments, either return result text (`Except.ok`) or raise an
exception with the given message (`Except.error`). -/
abbrev ToolManager := String → List (String × String) → Except String String

/-- The keyword arguments of one `self.client.messages.create(**params)`
call: the base params (`model`, `temperature`, `max_tokens`) plus
`messages`, `system`, and the optional `tools` / `tool_choice` entries
(`none` when the key is absent from the params dict). -/
structure ApiCall where
  model : String
  temperature : Int
  max_tokens : Nat
  messages : List Message
  system : String
  tools : Option (List ToolSpec)
  tool_choice : Option String
deriving DecidableEq

/-- `AIGenerator.SYSTEM_PROMPT`, verbatim from the source. -/
def SYSTEM_PROMPT : String :=
  " You are an AI assistant specialized in course materials and educational content with access to a comprehensive search tool for course information.\n\nSearch Tool Usage:\n- Use the search tool **only** for questions about specific course content or detailed educational materials\n- **Search up to two times per query** — use a second search only when the first result is\n  insufficient to answer the question (e.g., comparing two courses, multi-part questions)\n- Do not search twice for the same information\n- Synthesize search results into accurate, fact-based responses\n- If search yields no results, state this clearly without offering alternatives\n\nResponse Protocol:\n- **General knowledge questions**: Answer using existing knowledge without searching\n- **Course-specific questions**: Search first, then answer\n- **No meta-commentary**:\n - Provide direct answers only — no reasoning process, search explanations, or question-type analysis\n - Do not mention \"based on the search results\"\n\n\nAll responses must be:\n1. **Brief, Concise and focused** - Get to the point quickly\n2. **Educational** - Maintain instructional value\n3. **Clear** - Use accessible language\n4. **Example-supported** - Include relevant examples when they aid understanding\nProvide only the direct answer to what was asked.\n"

/-- `AIGenerator.MAX_TOOL_ROUNDS = 2`. -/
def MAX_TOOL_ROUNDS : Nat := 2

/-- The `AIGenerator` instance state set in `__init__` (the `client` itself
is the oracle, passed separately). -/
structure AIGenerator where
  api_key : String
  model : String
deriving DecidableEq

/-- The pre-built base API parameters dict. -/
structure BaseParams where
  model : String
  temperature : Int
  max_tokens : Nat
deriving DecidableEq

/-- `self.base_params = {"model": self.model, "temperature": 0, "max_tokens": 800}`. -/
def AIGenerator.base_params (g : AIGenerator) : BaseParams :=
  { model := g.model, temperature := 0, max_tokens := 800 }

/-- Python truthiness of the `tools` argument (`if tools:`): `None` and the
empty list are falsy. -/
def toolsTruthy : Option (List ToolSpec) → Bool
  | none => false
  | some ts => !ts.isEmpty

/-- Python truthiness of `conversation_history` (`if conversation_history`):
`None` and the empty string are falsy. -/
def historyTruthy : Option String → Bool
  | none => false
  | some h => !(h == "")

/-- The system content built at the top of `generate_response`: the fixed
prompt, with the history section appended only when `conversation_history`
is truthy. -/
def buildSystemContent (conversation_history : Option String) : String :=
  if historyTruthy conversation_history then
    SYSTEM_PROMPT ++ "\n\nPrevious conversation:\n" ++ conversation_history.getD ""
  else
    SYSTEM_PROMPT

/-- The keyword arguments of one in-loop model-service call: the base
params, the current messages and system content, plus `tools` and
`tool_choice: {"type": "auto"}` exactly when `tools` is truthy. -/
def buildApiParams (g : AIGenerator) (msgs : List Message) (system_content : String)
    (tools : Option (List ToolSpec)) : ApiCall :=
  { model := g.base_params.model
    temperature := g.base_params.temperature
    max_tokens := g.base_params.max_tokens
    messages := msgs
    system := system_content
    tools := if toolsTruthy tools then tools else none
    tool_choice := if toolsTruthy tools then some "auto" else none }

/-- The tool-execution `for` loop over `response.content`: for every block
of type `tool_use`, call `tool_manager.execute_tool(block.name,
**block.input)`, catching any exception `e` and replacing the result by
`"Tool execution failed: " + str(e)`, and collect
`{"type": "tool_result", "tool_use_id": block.id, "content": result}`
entries in block order. -/
def execToolBlocks (tool_manager : ToolManager) : List ContentBlock → List ToolResult
  | [] => []
  | ContentBlock.text _ :: rest => execToolBlocks tool_manager rest
  | ContentBlock.toolUse id nm input :: rest =>
      { tool_use_id := id
        content :=
          match tool_manager nm input with
          | Except.ok r => r
          | Except.error e => "Tool execution failed: " ++ e } ::
        execToolBlocks tool_manager rest

/-- The mutable local state of the `while` loop in `generate_response`:
the transcript, the log of model-service calls made so far (the oracle
index is its length), the current `response` local (`None` before the
first call), and `rounds_completed`. -/
structure LoopState where
  messages : List Message
  calls : List ApiCall
  response : Option ModelResponse
  rounds_completed : Nat
deriving DecidableEq

/-- The `while rounds_completed < self.MAX_TOOL_ROUNDS` loop of
`generate_response`.  `fuel = MAX_TOOL_ROUNDS - rounds_completed` counts
the remaining admissible iterations, so `fuel = 0` is exactly the loop
condition turning false.  Each iteration issues one model-service call;
it breaks out when the response is a direct answer, when no tool manager
was supplied, or (defensively) when `stop_reason` said `tool_use` but no
tool-use block was present — otherwise it appends the assistant turn and
the tool-results turn and continues with `rounds_completed + 1`. -/
def genLoop (g : AIGenerator) (oracle : Nat → ModelResponse)
    (tool_manager : Option ToolManager) (tools : Option (List ToolSpec))
    (system_content : String) : Nat → LoopState → LoopState
  | 0, st => st
  | fuel + 1, st =>
    let resp := oracle st.calls.length
    let st1 : LoopState :=
      { st with
        calls := st.calls ++ [buildApiParams g st.messages system_content tools]
        response := some resp }
    if resp.stop_reason ≠ "tool_use" then st1
    else
      match tool_manager with
      | none => st1
      | some tm =>
        let msgs1 := st1.messages ++
          [{ role := "assistant", content := MessageContent.blocks resp.content }]
        let trs := execToolBlocks tm resp.content
        if trs.isEmpty then { st1 with messages := msgs1 }
        else
          genLoop g oracle tool_manager tools system_content fuel
            { messages := msgs1 ++ [{ role := "user", content := MessageContent.results trs }]
              calls := st1.calls
              response := st1.response
              rounds_completed := st1.rounds_completed + 1 }

/-- `_extract_text`: the text of the first `text` block of the content, or
`""` if none exists. -/
def extract_text : List ContentBlock → String
  | [] => ""
  | ContentBlock.text t :: _ => t
  | ContentBlock.toolUse _ _ _ :: rest => extract_text rest

/-- Everything observable about one `generate_response` execution: the
returned string, the full ordered log of model-service calls (the final
synthesis call included), the final transcript, and `rounds_completed`. -/
structure GenOutput where
  result : String
  calls : List ApiCall
  messages : List Message
  rounds_completed : Nat
deriving DecidableEq

/-- `AIGenerator.generate_response`.  After the loop: if the last response
was a direct answer, return its first text block (fast path); otherwise
issue one more model-service call with the accumulated transcript and the
same system content but without `tools` / `tool_choice`, and return its
first text block.  The `none` branch of the match is unreachable because
`MAX_TOOL_ROUNDS = 2 > 0` forces at least one loop iteration (in Python it
would be an `AttributeError` on `None`). -/
def generate_response (g : AIGenerator) (oracle : Nat → ModelResponse) (query : String)
    (conversation_history : Option String) (tools : Option (List ToolSpec))
    (tool_manager : Option ToolManager) : GenOutput :=
  let system_content := buildSystemContent conversation_history
  let st0 : LoopState :=
    { messages := [{ role := "user", content := MessageContent.str query }]
      calls := []
      response := none
      rounds_completed := 0 }
  let st := genLoop g oracle tool_manager tools system_content MAX_TOOL_ROUNDS st0
  match st.response with
  | none =>
      { result := ""
        calls := st.calls
        messages := st.messages
        rounds_completed := st.rounds_completed }
  | some resp =>
    if resp.stop_reason ≠ "tool_use" then
      { result := extract_text resp.content
        calls := st.calls
        messages := st.messages
        rounds_completed := st.rounds_completed }
    else
      let final_params : ApiCall :=
        { model := g.base_params.model
          temperature := g.base_params.temperature
          max_tokens := g.base_params.max_tokens
          messages := st.messages
          system := system_content
          tools := none
          tool_choice := none }
      let final_response := oracle st.calls.length
      { result := extract_text final_response.content
        calls := st.calls ++ [final_params]
        messages := st.messages
        rounds_completed := st.rounds_completed }

/-- `block.type == "tool_use"` as a predicate on embedded blocks. -/
def isToolUse : ContentBlock → Bool
  | ContentBlock.toolUse _ _ _ => true
  | _ => false

/-- `block.type == "text"` as a predicate on embedded blocks. -/
def isText : ContentBlock → Bool
  | ContentBlock.text _ => true
  | _ => false

/-- The ids of the tool-use blocks of a content list, in emission order. -/
def toolUseIds (bs : List ContentBlock) : List String :=
  bs.filterMap fun b =>
    match b with
    | ContentBlock.toolUse i _ _ => some i
    | _ => none

/-- The `tool_use_id`s of a tool-result list, in order. -/
def resultIds (rs : List ToolResult) : List String :=
  rs.map fun r => r.tool_use_id

/-- The transcript invariant of claim C6: every tool-results turn is
immediately preceded by an assistant turn whose tool-use block ids it
matches exactly, in order. -/
def TranscriptInv (msgs : List Message) : Prop :=
  ∀ i r rs, msgs.get? i = some { role := r, content := MessageContent.results rs } →
    ∃ j bs, i = j + 1 ∧
      msgs.get? j = some { role := "assistant", content := MessageContent.blocks bs } ∧
      resultIds rs = toolUseIds bs

/-- The seed user turn `{"role": "user", "content": query}`. -/
def userMsg (query : String) : Message :=
  { role := "user", content := MessageContent.str query }

/-- An assistant turn `{"role": "assistant", "content": response.content}`. -/
def assistantMsg (bs : List ContentBlock) : Message :=
  { role := "assistant", content := MessageContent.blocks bs }

/-- A tool-results user turn `{"role": "user", "content": tool_results}`. -/
def resultsMsg (rs : List ToolResult) : Message :=
  { role := "user", content := MessageContent.results rs }

/-- The parameters of the final synthesis call: base params, the
accumulated transcript, the system content, and no `tools` /
`tool_choice` keys. -/
def finalParams (g : AIGenerator) (msgs : List Message) (system_content : String) : ApiCall :=
  { model := g.base_params.model
    temperature := g.base_params.temperature
    max_tokens := g.base_params.max_tokens
    messages := msgs
    system := system_content
    tools := none
    tool_choice := none }

/-! Concrete instances used by the witness and counterexample theorems. -/

/-- A concrete generator instance. -/
def gEx : AIGenerator := { api_key := "test-key", model := "claude-test" }

/-- A tool manager whose every execution succeeds. -/
def tmOk : ToolManager := fun _ _ => Except.ok "search result text"

/-- A tool manager that raises on the tool named `"bad"` and succeeds on
every other tool. -/
def tmErr : ToolManager := fun nm _ =>
  if nm = "bad" then Except.error "DB unavailable" else Except.ok "ok"

/-- A well-formed tool-use block. -/
def tuBlock1 : ContentBlock := ContentBlock.toolUse "t1" "search_course_content" [("query", "q1")]

/-- A second well-formed tool-use block. -/
def tuBlock2 : ContentBlock := ContentBlock.toolUse "t2" "search_course_content" [("query", "q2")]

/-- A tool-use block whose execution raises under `tmErr`. -/
def tuBad : ContentBlock := ContentBlock.toolUse "t9" "bad" []

/-- Model service that answers directly on the first call. -/
def oDirect : Nat → ModelResponse := fun _ =>
  { stop_reason := "end_turn", content := [ContentBlock.text "hi"] }

/-- Model service whose first response signals `tool_use` while carrying
only a text block, and whose second response is a direct answer. -/
def oMalformedFirst : Nat → ModelResponse := fun n =>
  if n = 0 then { stop_reason := "tool_use", content := [ContentBlock.text "partial"] }
  else { stop_reason := "end_turn", content := [ContentBlock.text "synth"] }

/-- Model service whose first response signals `tool_use` (text `"draft"`,
no tool blocks) and whose second response is a direct answer `"final"`. -/
def oNoMgr : Nat → ModelResponse := fun n =>
  if n = 0 then { stop_reason := "tool_use", content := [ContentBlock.text "draft"] }
  else { stop_reason := "end_turn", content := [ContentBlock.text "final"] }

/-- Model service that requests one tool round, then signals `tool_use`
with zero tool blocks, then answers `"synth2"`. -/
def oRoundThenMalformed : Nat → ModelResponse := fun n =>
  if n = 0 then { stop_reason := "tool_use", content := [tuBlock1] }
  else if n = 1 then { stop_reason := "tool_use", content := [ContentBlock.text "note"] }
  else { stop_reason := "end_turn", content := [ContentBlock.text "synth2"] }

/-- Model service that requests one tool round and then answers `"done"`. -/
def oOneRound : Nat → ModelResponse := fun n =>
  if n = 0 then { stop_reason := "tool_use", content := [tuBlock1] }
  else { stop_reason := "end_turn", content := [ContentBlock.text "done"] }

/-- Model service that requests two tool rounds and then answers
`"combined"`. -/
def oTwoRounds : Nat → ModelResponse := fun n =>
  if n = 0 then { stop_reason := "tool_use", content := [tuBlock1] }
  else if n = 1 then { stop_reason := "tool_use", content := [tuBlock2] }
  else { stop_reason := "end_turn", content := [ContentBlock.text "combined"] }

/-! Basic lemmas about the tool-execution loop. -/

theorem execToolBlocks_append (tm : ToolManager) (l1 l2 : List ContentBlock) :
    execToolBlocks tm (l1 ++ l2) = execToolBlocks tm l1 ++ execToolBlocks tm l2 := by
  induction l1 with
  | nil => simp [execToolBlocks]
  | cons b rest ih => cases b <;> simp [execToolBlocks, ih]

theorem execToolBlocks_ids (tm : ToolManager) (bs : List ContentBlock) :
    resultIds (execToolBlocks tm bs) = toolUseIds bs := by
  induction bs with
  | nil => rfl
  | cons b rest ih =>
    cases b <;> simp [execToolBlocks, resultIds, toolUseIds] at ih ⊢ <;> exact ih

theorem execToolBlocks_eq_nil_iff (tm : ToolManager) (bs : List ContentBlock) :
    execToolBlocks tm bs = [] ↔ bs.any isToolUse = false := by
  induction bs with
  | nil => simp [execToolBlocks]
  | cons b rest ih => cases b <;> simp [execToolBlocks, isToolUse, ih]

/-! Characterization of every possible `generate_response` execution path.
With `MAX_TOOL_ROUNDS = 2` there are exactly six cases, distinguished by
the `stop_reason` of the first two responses, the presence of a tool
manager, and whether a `tool_use` response actually carries tool blocks. -/

theorem run_direct (g : AIGenerator) (oracle : Nat → ModelResponse) (q : String)
    (ch : Option String) (tools : Option (List ToolSpec)) (tm : Option ToolManager)
    (h : (oracle 0).stop_reason ≠ "tool_use") :
    generate_response g oracle q ch tools tm =
      { result := extract_text (oracle 0).content
        calls := [buildApiParams g [userMsg q] (buildSystemContent ch) tools]
        messages := [userMsg q]
        rounds_completed := 0 } := by
  simp [generate_response, genLoop, MAX_TOOL_ROUNDS, h, userMsg]

theorem run_no_manager (g : AIGenerator) (oracle : Nat → ModelResponse) (q : String)
    (ch : Option String) (tools : Option (List ToolSpec))
    (h : (oracle 0).stop_reason = "tool_use") :
    generate_response g oracle q ch tools none =
      { result := extract_text (oracle 1).content
        calls := [buildApiParams g [userMsg q] (buildSystemContent ch) tools,
                  finalParams g [userMsg q] (buildSystemContent ch)]
        messages := [userMsg q]
        rounds_completed := 0 } := by
  simp [generate_response, genLoop, MAX_TOOL_ROUNDS, h, userMsg, finalParams]

theorem run_malformed_first (g : AIGenerator) (oracle : Nat → ModelResponse) (q : String)
    (ch : Option String) (tools : Option (List ToolSpec)) (tm : ToolManager)
    (h0 : (oracle 0).stop_reason = "tool_use")
    (h0e : execToolBlocks tm (oracle 0).content = []) :
    generate_response g oracle q ch tools (some tm) =
      { result := extract_text (oracle 1).content
        calls := [buildApiParams g [userMsg q] (buildSystemContent ch) tools,
                  finalParams g [userMsg q, assistantMsg (oracle 0).content]
                    (buildSystemContent ch)]
        messages := [userMsg q, assistantMsg (oracle 0).content]
        rounds_completed := 0 } := by
  simp [generate_response, genLoop, MAX_TOOL_ROUNDS, h0, h0e, userMsg, assistantMsg,
    finalParams]

theorem run_one_round (g : AIGenerator) (oracle : Nat → ModelResponse) (q : String)
    (ch : Option String) (tools : Option (List ToolSpec)) (tm : ToolManager)
    (h0 : (oracle 0).stop_reason = "tool_use")
    (h0e : execToolBlocks tm (oracle 0).content ≠ [])
    (h1 : (oracle 1).stop_reason ≠ "tool_use") :
    generate_response g oracle q ch tools (some tm) =
      { result := extract_text (oracle 1).content
        calls := [buildApiParams g [userMsg q] (buildSystemContent ch) tools,
                  buildApiParams g
                    [userMsg q, assistantMsg (oracle 0).content,
                     resultsMsg (execToolBlocks tm (oracle 0).content)]
                    (buildSystemContent ch) tools]
        messages := [userMsg q, assistantMsg (oracle 0).content,
                     resultsMsg (execToolBlocks tm (oracle 0).content)]
        rounds_completed := 1 } := by
  have h0e' : (execToolBlocks tm (oracle 0).content).isEmpty = false := by
    simpa [List.isEmpty_iff] using h0e
  simp [generate_response, genLoop, MAX_TOOL_ROUNDS, h0, h0e', h1, userMsg,
    assistantMsg, resultsMsg]

theorem run_malformed_second (g : AIGenerator) (oracle : Nat → ModelResponse) (q : String)
    (ch : Option String) (tools : Option (List ToolSpec)) (tm : ToolManager)
    (h0 : (oracle 0).stop_reason = "tool_use")
    (h0e : execToolBlocks tm (oracle 0).content ≠ [])
    (h1 : (oracle 1).stop_reason = "tool_use")
    (h1e : execToolBlocks tm (oracle 1).content = []) :
    generate_response g oracle q ch tools (some tm) =
      { result := extract_text (oracle 2).content
        calls := [buildApiParams g [userMsg q] (buildSystemContent ch) tools,
                  buildApiParams g
                    [userMsg q, assistantMsg (oracle 0).content,
                     resultsMsg (execToolBlocks tm (oracle 0).content)]
                    (buildSystemContent ch) tools,
                  finalParams g
                    [userMsg q, assistantMsg (oracle 0).content,
                     resultsMsg (execToolBlocks tm (oracle 0).content),
                     assistantMsg (oracle 1).content]
                    (buildSystemContent ch)]
        messages := [userMsg q, assistantMsg (oracle 0).content,
                     resultsMsg (execToolBlocks tm (oracle 0).content),
                     assistantMsg (oracle 1).content]
        rounds_completed := 1 } := by
  have h0e' : (execToolBlocks tm (oracle 0).content).isEmpty = false := by
    simpa [List.isEmpty_iff] using h0e
  simp [generate_response, genLoop, MAX_TOOL_ROUNDS, h0, h0e', h1, h1e, userMsg,
    assistantMsg, resultsMsg, finalParams]

theorem run_two_rounds (g : AIGenerator) (oracle : Nat → ModelResponse) (q : String)
    (ch : Option String) (tools : Option (List ToolSpec)) (tm : ToolManager)
    (h0 : (oracle 0).stop_reason = "tool_use")
    (h0e : execToolBlocks tm (oracle 0).content ≠ [])
    (h1 : (oracle 1).stop_reason = "tool_use")
    (h1e : execToolBlocks tm (oracle 1).content ≠ []) :
    generate_response g oracle q ch tools (some tm) =
      { result := extract_text (oracle 2).content
        calls := [buildApiParams g [userMsg q] (buildSystemContent ch) tools,
                  buildApiParams g
                    [userMsg q, assistantMsg (oracle 0).content,
                     resultsMsg (execToolBlocks tm (oracle 0).content)]
                    (buildSystemContent ch) tools,
                  finalParams g
                    [userMsg q, assistantMsg (oracle 0).content,
                     resultsMsg (execToolBlocks tm (oracle 0).content),
                     assistantMsg (oracle 1).content,
                     resultsMsg (execToolBlocks tm (oracle 1).content)]
                    (buildSystemContent ch)]
        messages := [userMsg q, assistantMsg (oracle 0).content,
                     resultsMsg (execToolBlocks tm (oracle 0).content),
                     assistantMsg (oracle 1).content,
                     resultsMsg (execToolBlocks tm (oracle 1).content)]
        rounds_completed := 2 } := by
  have h0e' : (execToolBlocks tm (oracle 0).content).isEmpty = false := by
    simpa [List.isEmpty_iff] using h0e
  have h1e' : (execToolBlocks tm (oracle 1).content).isEmpty = false := by
    simpa [List.isEmpty_iff] using h1e
  simp [generate_response, genLoop, MAX_TOOL_ROUNDS, h0, h0e', h1, h1e', userMsg,
    assistantMsg, resultsMsg, finalParams]

/-! The transcript invariant holds for every transcript shape the loop can
produce. -/

theorem transcriptInv_user (q : String) : TranscriptInv [userMsg q] := by
  intro i r rs h
  match i with
  | 0 => simp [userMsg] at h
  | i + 1 => simp at h

theorem transcriptInv_user_assistant (q : String) (bs : List ContentBlock) :
    TranscriptInv [userMsg q, assistantMsg bs] := by
  intro i r rs h
  match i with
  | 0 => simp [userMsg] at h
  | 1 => simp [assistantMsg] at h
  | i + 2 => simp at h

theorem transcriptInv_one_round (q : String) (tm : ToolManager) (bs : List ContentBlock) :
    TranscriptInv [userMsg q, assistantMsg bs, resultsMsg (execToolBlocks tm bs)] := by
  intro i r rs h
  match i with
  | 0 => simp [userMsg] at h
  | 1 => simp [assistantMsg] at h
  | 2 =>
    refine ⟨1, bs, rfl, rfl, ?_⟩
    simp [resultsMsg] at h
    rw [← h.2]
    exact execToolBlocks_ids tm bs
  | i + 3 => simp at h

theorem transcriptInv_one_round_assistant (q : String) (tm : ToolManager)
    (bs bs' : List ContentBlock) :
    TranscriptInv
      [userMsg q, assistantMsg bs, resultsMsg (execToolBlocks tm bs), assistantMsg bs'] := by
  intro i r rs h
  match i with
  | 0 => simp [userMsg] at h
  | 1 => simp [assistantMsg] at h
  | 2 =>
    refine ⟨1, bs, rfl, rfl, ?_⟩
    simp [resultsMsg] at h
    rw [← h.2]
    exact execToolBlocks_ids tm bs
  | 3 => simp [assistantMsg] at h
  | i + 4 => simp at h

theorem transcriptInv_two_rounds (q : String) (tm : ToolManager)
    (bs bs' : List ContentBlock) :
    TranscriptInv
      [userMsg q, assistantMsg bs, resultsMsg (execToolBlocks tm bs), assistantMsg bs',
       resultsMsg (execToolBlocks tm bs')] := by
  intro i r rs h
  match i with
  | 0 => simp [userMsg] at h
  | 1 => simp [assistantMsg] at h
  | 2 =>
    refine ⟨1, bs, rfl, rfl, ?_⟩
    simp [resultsMsg] at h
    rw [← h.2]
    exact execToolBlocks_ids tm bs
  | 3 => simp [assistantMsg] at h
  | 4 =>
    refine ⟨3, bs', rfl, rfl, ?_⟩
    simp [resultsMsg] at h
    rw [← h.2]
    exact execToolBlocks_ids tm bs'
  | i + 5 => simp at h

/-- C6: in every transcript built by `generate_response`, a tool-result
turn contains exactly one result per tool-use block of the immediately
preceding assistant turn, matched by id in emission order, and no
tool-result turn appears without such a preceding turn. -/
theorem C6_transcript_invariant (g : AIGenerator) (oracle : Nat → ModelResponse)
    (q : String) (ch : Option String) (tools : Option (List ToolSpec))
    (tm : Option ToolManager) :
    TranscriptInv (generate_response g oracle q ch tools tm).messages := by
  by_cases h0 : (oracle 0).stop_reason = "tool_use"
  · cases tm with
    | none =>
      rw [run_no_manager g oracle q ch tools h0]
      exact transcriptInv_user q
    | some tm =>
      by_cases h0e : execToolBlocks tm (oracle 0).content = []
      · rw [run_malformed_first g oracle q ch tools tm h0 h0e]
        exact transcriptInv_user_assistant q (oracle 0).content
      · by_cases h1 : (oracle 1).stop_reason = "tool_use"
        · by_cases h1e : execToolBlocks tm (oracle 1).content = []
          · rw [run_malformed_second g oracle q ch tools tm h0 h0e h1 h1e]
            exact transcriptInv_one_round_assistant q tm (oracle 0).content (oracle 1).content
          · rw [run_two_rounds g oracle q ch tools tm h0 h0e h1 h1e]
            exact transcriptInv_two_rounds q tm (oracle 0).content (oracle 1).content
        · rw [run_one_round g oracle q ch tools tm h0 h0e h1]
          exact transcriptInv_one_round q tm (oracle 0).content
  · rw [run_direct g oracle q ch tools tm h0]
    exact transcriptInv_user q

/-- C7: `generate_response` always terminates (it is a total function of
its oracle); the round counter starts at 0, is incremented once per
completed tool round, never exceeds `MAX_TOOL_ROUNDS = 2`, and the number
of model-service calls is between `rounds_completed + 1` and
`rounds_completed + 2`, hence at most `MAX_TOOL_ROUNDS + 1`. -/
theorem C7_round_budget (g : AIGenerator) (oracle : Nat → ModelResponse)
    (q : String) (ch : Option String) (tools : Option (List ToolSpec))
    (tm : Option ToolManager) :
    (generate_response g oracle q ch tools tm).rounds_completed ≤ MAX_TOOL_ROUNDS ∧
    (generate_response g oracle q ch tools tm).rounds_completed + 1
      ≤ (generate_response g oracle q ch tools tm).calls.length ∧
    (generate_response g oracle q ch tools tm).calls.length
      ≤ (generate_response g oracle q ch tools tm).rounds_completed + 2 ∧
    (generate_response g oracle q ch tools tm).calls.length ≤ MAX_TOOL_ROUNDS + 1 := by
  by_cases h0 : (oracle 0).stop_reason = "tool_use"
  · cases tm with
    | none =>
      rw [run_no_manager g oracle q ch tools h0]
      simp [MAX_TOOL_ROUNDS]
    | some tm =>
      by_cases h0e : execToolBlocks tm (oracle 0).content = []
      · rw [run_malformed_first g oracle q ch tools tm h0 h0e]
        simp [MAX_TOOL_ROUNDS]
      · by_cases h1 : (oracle 1).stop_reason = "tool_use"
        · by_cases h1e : execToolBlocks tm (oracle 1).content = []
          · rw [run_malformed_second g oracle q ch tools tm h0 h0e h1 h1e]
            simp [MAX_TOOL_ROUNDS]
          · rw [run_two_rounds g oracle q ch tools tm h0 h0e h1 h1e]
            simp [MAX_TOOL_ROUNDS]
        · rw [run_one_round g oracle q ch tools tm h0 h0e h1]
          simp [MAX_TOOL_ROUNDS]
  · rw [run_direct g oracle q ch tools tm h0]
    simp [MAX_TOOL_ROUNDS]

/-- C1 counterexample: tools are supplied and used (one tool-execution
round completes, so `r = 1`), yet three model-service calls occur instead
of the claimed `r + 1 = 2`, because the second response signals `tool_use`
with zero tool blocks and the loop then still issues the final synthesis
call. -/
theorem C1_counterexample :
    (generate_response gEx oRoundThenMalformed "q" none
        (some ["search_course_content"]) (some tmOk)).rounds_completed = 1 ∧
    (generate_response gEx oRoundThenMalformed "q" none
        (some ["search_course_content"]) (some tmOk)).calls.length = 3 :=
  ⟨rfl, rfl⟩

/-- C1 (amended): provided every response with `stop_reason = "tool_use"`
carries at least one tool-use block, a run with a tool manager makes
exactly `rounds_completed + 1` model-service calls; exactly one call
occurs when the model never requests a tool; and when the full
`MAX_TOOL_ROUNDS = 2` budget is used, the final call advertises no tools
and no tool choice. -/
theorem C1_call_count (g : AIGenerator) (oracle : Nat → ModelResponse) (q : String)
    (ch : Option String) (tools : Option (List ToolSpec)) (tm : ToolManager)
    (hwf : ∀ n, (oracle n).stop_reason = "tool_use" →
      (oracle n).content.any isToolUse = true) :
    (generate_response g oracle q ch tools (some tm)).calls.length
      = (generate_response g oracle q ch tools (some tm)).rounds_completed + 1 ∧
    ((oracle 0).stop_reason ≠ "tool_use" →
      (generate_response g oracle q ch tools (some tm)).calls.length = 1) ∧
    ((generate_response g oracle q ch tools (some tm)).rounds_completed = MAX_TOOL_ROUNDS →
      ∃ c, (generate_response g oracle q ch tools (some tm)).calls.getLast? = some c ∧
        c.tools = none ∧ c.tool_choice = none) := by
  by_cases h0 : (oracle 0).stop_reason = "tool_use"
  · have h0e : execToolBlocks tm (oracle 0).content ≠ [] := by
      intro hnil
      rw [execToolBlocks_eq_nil_iff] at hnil
      simp [hwf 0 h0] at hnil
    by_cases h1 : (oracle 1).stop_reason = "tool_use"
    · have h1e : execToolBlocks tm (oracle 1).content ≠ [] := by
        intro hnil
        rw [execToolBlocks_eq_nil_iff] at hnil
        simp [hwf 1 h1] at hnil
      rw [run_two_rounds g oracle q ch tools tm h0 h0e h1 h1e]
      exact ⟨rfl, fun hc => absurd h0 hc, fun _ => ⟨_, rfl, rfl, rfl⟩⟩
    · rw [run_one_round g oracle q ch tools tm h0 h0e h1]
      refine ⟨rfl, fun hc => absurd h0 hc, fun hr => ?_⟩
      simp [MAX_TOOL_ROUNDS] at hr
  · rw [run_direct g oracle q ch tools (some tm) h0]
    refine ⟨rfl, fun _ => rfl, fun hr => ?_⟩
    simp [MAX_TOOL_ROUNDS] at hr

/-- C1 witness: a well-formed two-round run makes
`rounds_completed + 1 = 3` model-service calls and its last call carries
no tools. -/
theorem C1_witness :
    (generate_response gEx oTwoRounds "q" none (some ["search_course_content"])
        (some tmOk)).calls.length
      = (generate_response gEx oTwoRounds "q" none (some ["search_course_content"])
          (some tmOk)).rounds_completed + 1 ∧
    ∃ c, (generate_response gEx oTwoRounds "q" none (some ["search_course_content"])
        (some tmOk)).calls.getLast? = some c ∧ c.tools = none ∧ c.tool_choice = none := by
  have hwf : ∀ n, (oTwoRounds n).stop_reason = "tool_use" →
      (oTwoRounds n).content.any isToolUse = true := by
    intro n hn
    match n with
    | 0 => decide
    | 1 => decide
    | n + 2 => exact absurd hn (by simp [oTwoRounds])
  have h := C1_call_count gEx oTwoRounds "q" none (some ["search_course_content"]) tmOk hwf
  exact ⟨h.1, h.2.2 rfl⟩

/-- C2 counterexample: with `tool_manager = None` and a first response
whose `stop_reason` is `tool_use`, two model-service calls occur (not the
claimed one), and the returned text comes from the second call rather
than from the first response. -/
theorem C2_counterexample :
    (generate_response gEx oNoMgr "q" none none none).calls.length = 2 ∧
    (generate_response gEx oNoMgr "q" none none none).result = "final" ∧
    extract_text (oNoMgr 0).content = "draft" :=
  ⟨rfl, rfl, rfl⟩

/-- C2 (amended): a direct answer (`stop_reason ≠ "tool_use"`) stops the
loop and is returned immediately with no further model-service call —
both on the first response and after one completed tool round.  When
`tool_manager` is `None`, the loop always stops after its first
iteration, but if that first response signalled `tool_use`, one
additional tool-free synthesis call is issued and its text is returned,
for two model-service calls in total. -/
theorem C2_direct_answer (g : AIGenerator) (oracle : Nat → ModelResponse) (q : String)
    (ch : Option String) (tools : Option (List ToolSpec)) :
    (∀ tm, (oracle 0).stop_reason ≠ "tool_use" →
      (generate_response g oracle q ch tools tm).calls.length = 1 ∧
      (generate_response g oracle q ch tools tm).result = extract_text (oracle 0).content ∧
      (generate_response g oracle q ch tools tm).rounds_completed = 0) ∧
    (∀ tm, (oracle 0).stop_reason = "tool_use" →
      execToolBlocks tm (oracle 0).content ≠ [] →
      (oracle 1).stop_reason ≠ "tool_use" →
      (generate_response g oracle q ch tools (some tm)).calls.length = 2 ∧
      (generate_response g oracle q ch tools (some tm)).result
        = extract_text (oracle 1).content) ∧
    ((oracle 0).stop_reason = "tool_use" →
      (generate_response g oracle q ch tools none).calls.length = 2 ∧
      (generate_response g oracle q ch tools none).result = extract_text (oracle 1).content ∧
      (generate_response g oracle q ch tools none).rounds_completed = 0 ∧
      ∃ c, (generate_response g oracle q ch tools none).calls.getLast? = some c ∧
        c.tools = none ∧ c.tool_choice = none) := by
  refine ⟨fun tm h => ?_, fun tm h0 h0e h1 => ?_, fun h0 => ?_⟩
  · rw [run_direct g oracle q ch tools tm h]
    exact ⟨rfl, rfl, rfl⟩
  · rw [run_one_round g oracle q ch tools tm h0 h0e h1]
    exact ⟨rfl, rfl⟩
  · rw [run_no_manager g oracle q ch tools h0]
    exact ⟨rfl, rfl, rfl, _, rfl, rfl, rfl⟩

/-- C2 witness: instances of the amended statement — one call on a direct
answer, two calls when `tool_manager` is `None` but the model requested
tools. -/
theorem C2_witness :
    (generate_response gEx oDirect "q" none none none).calls.length = 1 ∧
    (generate_response gEx oDirect "q" none none none).result = "hi" ∧
    (generate_response gEx oNoMgr "q2" none none none).calls.length = 2 := by
  have h1 := (C2_direct_answer gEx oDirect "q" none none).1 none (by decide)
  have h2 := (C2_direct_answer gEx oNoMgr "q2" none none).2.2 (by decide)
  exact ⟨h1.1, h1.2.1.trans rfl, h2.1⟩

/-- C3 counterexample: the first response signals `tool_use` with zero
tool blocks while carrying the text `"partial"`; `generate_response` does
stop looping, but it issues a second, tool-free model-service call and
returns that call's text `"synth"` — not the last answer text available
from the model's turns so far. -/
theorem C3_counterexample :
    (generate_response gEx oMalformedFirst "q" none none (some tmOk)).result = "synth" ∧
    extract_text (oMalformedFirst 0).content = "partial" ∧
    (generate_response gEx oMalformedFirst "q" none none (some tmOk)).calls.length = 2 :=
  ⟨rfl, rfl, rfl⟩

/-- C3 (amended): when a model response has `stop_reason = "tool_use"`
but zero tool-call blocks, the loop stops (the round counter is not
incremented and no further loop iteration runs), the situation never
raises, and `generate_response` issues one additional tool-free synthesis
call and returns that call's text.  This can happen on the first response
(no round completed) or on the second (one round completed). -/
theorem C3_malformed_tool_use (g : AIGenerator) (oracle : Nat → ModelResponse) (q : String)
    (ch : Option String) (tools : Option (List ToolSpec)) (tm : ToolManager) :
    ((oracle 0).stop_reason = "tool_use" → execToolBlocks tm (oracle 0).content = [] →
      (generate_response g oracle q ch tools (some tm)).rounds_completed = 0 ∧
      (generate_response g oracle q ch tools (some tm)).messages
        = [userMsg q, assistantMsg (oracle 0).content] ∧
      (generate_response g oracle q ch tools (some tm)).calls.length = 2 ∧
      (generate_response g oracle q ch tools (some tm)).result
        = extract_text (oracle 1).content) ∧
    ((oracle 0).stop_reason = "tool_use" → execToolBlocks tm (oracle 0).content ≠ [] →
      (oracle 1).stop_reason = "tool_use" → execToolBlocks tm (oracle 1).content = [] →
      (generate_response g oracle q ch tools (some tm)).rounds_completed = 1 ∧
      (generate_response g oracle q ch tools (some tm)).messages
        = [userMsg q, assistantMsg (oracle 0).content,
           resultsMsg (execToolBlocks tm (oracle 0).content),
           assistantMsg (oracle 1).content] ∧
      (generate_response g oracle q ch tools (some tm)).calls.length = 3 ∧
      (generate_response g oracle q ch tools (some tm)).result
        = extract_text (oracle 2).content) := by
  refine ⟨fun h0 h0e => ?_, fun h0 h0e h1 h1e => ?_⟩
  · rw [run_malformed_first g oracle q ch tools tm h0 h0e]
    exact ⟨rfl, rfl, rfl, rfl⟩
  · rw [run_malformed_second g oracle q ch tools tm h0 h0e h1 h1e]
    exact ⟨rfl, rfl, rfl, rfl⟩

/-- C3 witness: the amended statement at a concrete malformed first
response — zero rounds, a two-turn transcript, and the synthesis text
returned. -/
theorem C3_witness :
    (generate_response gEx oMalformedFirst "q3" none none (some tmOk)).rounds_completed = 0 ∧
    (generate_response gEx oMalformedFirst "q3" none none (some tmOk)).messages
      = [userMsg "q3", assistantMsg [ContentBlock.text "partial"]] := by
  have h := (C3_malformed_tool_use gEx oMalformedFirst "q3" none none tmOk).1
    (by decide) (by decide)
  exact ⟨h.1, h.2.1⟩

/-- C4: when the round budget is exhausted with the last response still
requesting tools (two well-formed tool rounds), exactly one additional
model-service call is issued; it carries the fully accumulated
transcript and the same system content but no `tools` and no
`tool_choice`, and its text is what `generate_response` returns. -/
theorem C4_final_synthesis (g : AIGenerator) (oracle : Nat → ModelResponse) (q : String)
    (ch : Option String) (tools : Option (List ToolSpec)) (tm : ToolManager)
    (h0 : (oracle 0).stop_reason = "tool_use")
    (h0b : (oracle 0).content.any isToolUse = true)
    (h1 : (oracle 1).stop_reason = "tool_use")
    (h1b : (oracle 1).content.any isToolUse = true) :
    (generate_response g oracle q ch tools (some tm)).rounds_completed = MAX_TOOL_ROUNDS ∧
    (generate_response g oracle q ch tools (some tm)).calls.length = MAX_TOOL_ROUNDS + 1 ∧
    (generate_response g oracle q ch tools (some tm)).calls.getLast?
      = some
        { model := g.model
          temperature := 0
          max_tokens := 800
          messages := (generate_response g oracle q ch tools (some tm)).messages
          system := buildSystemContent ch
          tools := none
          tool_choice := none } ∧
    (generate_response g oracle q ch tools (some tm)).result
      = extract_text (oracle 2).content := by
  have h0e : execToolBlocks tm (oracle 0).content ≠ [] := by
    intro hnil
    rw [execToolBlocks_eq_nil_iff] at hnil
    simp [h0b] at hnil
  have h1e : execToolBlocks tm (oracle 1).content ≠ [] := by
    intro hnil
    rw [execToolBlocks_eq_nil_iff] at hnil
    simp [h1b] at hnil
  rw [run_two_rounds g oracle q ch tools tm h0 h0e h1 h1e]
  exact ⟨rfl, rfl, rfl, rfl⟩

/-- C4 witness: the two-round oracle yields three calls, the last of them
tool-free with the five-turn transcript, and the synthesis text
`"combined"` is returned. -/
theorem C4_witness :
    (generate_response gEx oTwoRounds "q4" none (some ["search_course_content"])
        (some tmOk)).rounds_completed = 2 ∧
    (generate_response gEx oTwoRounds "q4" none (some ["search_course_content"])
        (some tmOk)).calls.length = 3 ∧
    (generate_response gEx oTwoRounds "q4" none (some ["search_course_content"])
        (some tmOk)).result = "combined" := by
  have h := C4_final_synthesis gEx oTwoRounds "q4" none (some ["search_course_content"])
    tmOk (by decide) (by decide) (by decide) (by decide)
  exact ⟨h.1, h.2.1, h.2.2.2.trans rfl⟩

/-- C5: an exception raised by `tool_manager.execute_tool` is caught and
converted into the tool-result text `"Tool execution failed: <message>"`
for that call's id; the remaining requested tool calls of the same round
are still executed in order; and a `generate_response` run whose first
response contains such a failing call still proceeds, appending the
converted results turn to the transcript (the embedding is a total
function, so no exception ever escapes and a string is always returned). -/
theorem C5_exception_isolation (tm : ToolManager) (pre post : List ContentBlock)
    (id nm : String) (input : List (String × String)) (e : String)
    (herr : tm nm input = Except.error e) :
    execToolBlocks tm (pre ++ ContentBlock.toolUse id nm input :: post)
      = execToolBlocks tm pre
        ++ { tool_use_id := id, content := "Tool execution failed: " ++ e }
          :: execToolBlocks tm post ∧
    ∀ (g : AIGenerator) (oracle : Nat → ModelResponse) (q : String) (ch : Option String)
      (tools : Option (List ToolSpec)),
      (oracle 0).stop_reason = "tool_use" →
      (oracle 0).content = pre ++ ContentBlock.toolUse id nm input :: post →
      ∃ tail, (generate_response g oracle q ch tools (some tm)).messages
        = userMsg q :: assistantMsg (oracle 0).content ::
          resultsMsg (execToolBlocks tm pre
            ++ { tool_use_id := id, content := "Tool execution failed: " ++ e }
              :: execToolBlocks tm post) :: tail := by
  have hmid : execToolBlocks tm (pre ++ ContentBlock.toolUse id nm input :: post)
      = execToolBlocks tm pre
        ++ { tool_use_id := id, content := "Tool execution failed: " ++ e }
          :: execToolBlocks tm post := by
    rw [execToolBlocks_append]
    simp [execToolBlocks, herr]
  refine ⟨hmid, ?_⟩
  intro g oracle q ch tools h0 hc
  have hex : execToolBlocks tm (oracle 0).content
      = execToolBlocks tm pre
        ++ { tool_use_id := id, content := "Tool execution failed: " ++ e }
          :: execToolBlocks tm post := by
    rw [hc]
    exact hmid
  have h0e : execToolBlocks tm (oracle 0).content ≠ [] := by
    rw [hex]
    simp
  by_cases h1 : (oracle 1).stop_reason = "tool_use"
  · by_cases h1e : execToolBlocks tm (oracle 1).content = []
    · rw [run_malformed_second g oracle q ch tools tm h0 h0e h1 h1e, hex]
      exact ⟨_, rfl⟩
    · rw [run_two_rounds g oracle q ch tools tm h0 h0e h1 h1e, hex]
      exact ⟨_, rfl⟩
  · rw [run_one_round g oracle q ch tools tm h0 h0e h1, hex]
    exact ⟨_, rfl⟩

/-- C5 witness: under `tmErr`, executing the round `[tuBlock1, tuBad]`
converts the raised `"DB unavailable"` into an error-text result for id
`"t9"` while the preceding call still executes. -/
theorem C5_witness :
    execToolBlocks tmErr [tuBlock1, tuBad]
      = [{ tool_use_id := "t1", content := "ok" },
         { tool_use_id := "t9", content := "Tool execution failed: DB unavailable" }] := by
  have h := (C5_exception_isolation tmErr [tuBlock1] [] "t9" "bad" [] "DB unavailable" rfl).1
  exact h

/-- C8: `_extract_text` returns the empty string, raising nothing, when
the content has no text block, and the text of the first text block
otherwise. -/
theorem C8_extract_text (bs : List ContentBlock) :
    ((∀ b ∈ bs, isText b = false) → extract_text bs = "") ∧
    ∀ pre t post, bs = pre ++ ContentBlock.text t :: post →
      (∀ b ∈ pre, isText b = false) → extract_text bs = t := by
  constructor
  · intro h
    induction bs with
    | nil => rfl
    | cons b rest ih =>
      cases b with
      | text t =>
        have hb := h _ (List.mem_cons_self _ _)
        simp [isText] at hb
      | toolUse i n inp =>
        exact ih fun b hb => h b (List.mem_cons_of_mem _ hb)
  · intro pre t post hbs hpre
    subst hbs
    induction pre with
    | nil => rfl
    | cons b rest ih =>
      cases b with
      | text s =>
        have hb := hpre _ (List.mem_cons_self _ _)
        simp [isText] at hb
      | toolUse i n inp =>
        exact ih fun b hb => hpre b (List.mem_cons_of_mem _ hb)

/-- C8 witness: a content list of only tool-use blocks extracts to `""`;
with a later text block, the first text block's text is extracted. -/
theorem C8_witness :
    extract_text [tuBlock1] = "" ∧
    extract_text [tuBlock1, ContentBlock.text "hi"] = "hi" :=
  ⟨(C8_extract_text [tuBlock1]).1 (by decide),
   (C8_extract_text [tuBlock1, ContentBlock.text "hi"]).2 [tuBlock1] "hi" [] rfl (by decide)⟩

/-- C9: every model-service call of one `generate_response` run uses the
generator's model name, temperature 0, `max_tokens` 800, and the one
system content computed at entry — the fixed prompt with the history
section appended exactly when `conversation_history` is truthy.  (The
embedding is a pure function of the generator, matching the source, which
assigns no attribute of `self` in `generate_response`.) -/
theorem C9_call_parameters (g : AIGenerator) (oracle : Nat → ModelResponse) (q : String)
    (ch : Option String) (tools : Option (List ToolSpec)) (tm : Option ToolManager)
    (c : ApiCall) (hc : c ∈ (generate_response g oracle q ch tools tm).calls) :
    c.model = g.model ∧ c.temperature = 0 ∧ c.max_tokens = 800 ∧
    c.system = buildSystemContent ch ∧
    (historyTruthy ch = false → c.system = SYSTEM_PROMPT) ∧
    (∀ hist, ch = some hist → hist ≠ "" →
      c.system = SYSTEM_PROMPT ++ "\n\nPrevious conversation:\n" ++ hist) := by
  have key : c.model = g.model ∧ c.temperature = 0 ∧ c.max_tokens = 800 ∧
      c.system = buildSystemContent ch := by
    by_cases h0 : (oracle 0).stop_reason = "tool_use"
    · cases tm with
      | none =>
        rw [run_no_manager g oracle q ch tools h0] at hc
        simp only [List.mem_cons, List.mem_singleton, List.not_mem_nil, or_false] at hc
        rcases hc with rfl | rfl <;>
          simp [buildApiParams, finalParams, AIGenerator.base_params]
      | some tm =>
        by_cases h0e : execToolBlocks tm (oracle 0).content = []
        · rw [run_malformed_first g oracle q ch tools tm h0 h0e] at hc
          simp only [List.mem_cons, List.mem_singleton, List.not_mem_nil, or_false] at hc
          rcases hc with rfl | rfl <;>
            simp [buildApiParams, finalParams, AIGenerator.base_params]
        · by_cases h1 : (oracle 1).stop_reason = "tool_use"
          · by_cases h1e : execToolBlocks tm (oracle 1).content = []
            · rw [run_malformed_second g oracle q ch tools tm h0 h0e h1 h1e] at hc
              simp only [List.mem_cons, List.mem_singleton, List.not_mem_nil,
                or_false] at hc
              rcases hc with rfl | rfl | rfl <;>
                simp [buildApiParams, finalParams, AIGenerator.base_params]
            · rw [run_two_rounds g oracle q ch tools tm h0 h0e h1 h1e] at hc
              simp only [List.mem_cons, List.mem_singleton, List.not_mem_nil,
                or_false] at hc
              rcases hc with rfl | rfl | rfl <;>
                simp [buildApiParams, finalParams, AIGenerator.base_params]
          · rw [run_one_round g oracle q ch tools tm h0 h0e h1] at hc
            simp only [List.mem_cons, List.mem_singleton, List.not_mem_nil, or_false] at hc
            rcases hc with rfl | rfl <;>
              simp [buildApiParams, finalParams, AIGenerator.base_params]
    · rw [run_direct g oracle q ch tools tm h0] at hc
      simp only [List.mem_singleton, List.mem_cons, List.not_mem_nil, or_false] at hc
      subst hc
      simp [buildApiParams, AIGenerator.base_params]
  refine ⟨key.1, key.2.1, key.2.2.1, key.2.2.2, fun h => ?_, fun hist hch hne => ?_⟩
  · rw [key.2.2.2]
    simp [buildSystemContent, h]
  · rw [key.2.2.2, hch]
    simp [buildSystemContent, historyTruthy, hne]

/-- C9 witness: the single call of a direct-answer run with history
`"User: hi"` uses the generator's model, temperature 0, 800 max tokens,
and the prompt with the history section appended. -/
theorem C9_witness :
    (buildApiParams gEx [userMsg "q"] (buildSystemContent (some "User: hi")) none).model
      = gEx.model ∧
    (buildApiParams gEx [userMsg "q"] (buildSystemContent (some "User: hi")) none).temperature
      = 0 ∧
    (buildApiParams gEx [userMsg "q"] (buildSystemContent (some "User: hi")) none).max_tokens
      = 800 ∧
    (buildApiParams gEx [userMsg "q"] (buildSystemContent (some "User: hi")) none).system
      = SYSTEM_PROMPT ++ "\n\nPrevious conversation:\n" ++ "User: hi" := by
  have hc : buildApiParams gEx [userMsg "q"] (buildSystemContent (some "User: hi")) none
      ∈ (generate_response gEx oDirect "q" (some "User: hi") none none).calls := by
    rw [run_direct gEx oDirect "q" (some "User: hi") none none (by decide)]
    exact List.mem_singleton.mpr rfl
  have h := C9_call_parameters gEx oDirect "q" (some "User: hi") none none _ hc
  exact ⟨h.1, h.2.1, h.2.2.1, h.2.2.2.2.2 "User: hi" rfl (by decide)⟩

/-- C10: tool execution is triggered by `stop_reason` and the presence of
a tool manager alone: even with no tools advertised (`tools` falsy, so no
call carries `tools` or `tool_choice`), a `tool_use` response with at
least one tool block still has every requested call executed, with the
results turn appended after the assistant turn, one result per requested
id in emission order. -/
theorem C10_execution_without_advertisement (g : AIGenerator)
    (oracle : Nat → ModelResponse) (q : String) (ch : Option String)
    (tools : Option (List ToolSpec)) (tm : ToolManager)
    (htools : toolsTruthy tools = false)
    (h0 : (oracle 0).stop_reason = "tool_use")
    (h0b : (oracle 0).content.any isToolUse = true) :
    (∀ c ∈ (generate_response g oracle q ch tools (some tm)).calls,
      c.tools = none ∧ c.tool_choice = none) ∧
    (generate_response g oracle q ch tools (some tm)).messages.get? 1
      = some (assistantMsg (oracle 0).content) ∧
    (generate_response g oracle q ch tools (some tm)).messages.get? 2
      = some (resultsMsg (execToolBlocks tm (oracle 0).content)) ∧
    resultIds (execToolBlocks tm (oracle 0).content) = toolUseIds (oracle 0).content := by
  have h0e : execToolBlocks tm (oracle 0).content ≠ [] := by
    intro hnil
    rw [execToolBlocks_eq_nil_iff] at hnil
    simp [h0b] at hnil
  by_cases h1 : (oracle 1).stop_reason = "tool_use"
  · by_cases h1e : execToolBlocks tm (oracle 1).content = []
    · rw [run_malformed_second g oracle q ch tools tm h0 h0e h1 h1e]
      refine ⟨?_, rfl, rfl, execToolBlocks_ids tm _⟩
      simp [buildApiParams, finalParams, htools]
    · rw [run_two_rounds g oracle q ch tools tm h0 h0e h1 h1e]
      refine ⟨?_, rfl, rfl, execToolBlocks_ids tm _⟩
      simp [buildApiParams, finalParams, htools]
  · rw [run_one_round g oracle q ch tools tm h0 h0e h1]
    refine ⟨?_, rfl, rfl, execToolBlocks_ids tm _⟩
    simp [buildApiParams, htools]

/-- C10 witness: with `tools = none` and a tool manager supplied, a
`tool_use` response still gets its call executed and its results turn
appended. -/
theorem C10_witness :
    (generate_response gEx oOneRound "q" none none (some tmOk)).messages.get? 2
      = some (resultsMsg (execToolBlocks tmOk (oOneRound 0).content)) ∧
    resultIds (execToolBlocks tmOk (oOneRound 0).content)
      = toolUseIds (oOneRound 0).content := by
  have h := C10_execution_without_advertisement gEx oOneRound "q" none none tmOk
    (by decide) (by decide) (by decide)
  exact ⟨h.2.2.1, h.2.2.2⟩

end Rag
